import Mathlib

/-!
Shallow embedding of `src/aratsconfig.py` (ARATS configuration management).

The Python module defines four pydantic models — `FirebaseConfig`,
`ExchangeConfig`, `RiskConfig`, `ARATSConfig` — and a loader `load_config`
that reads environment variables, applies defaults, constructs and
validates the models, and ends in a bare `return` statement.

Modelling choices:
- The process environment is a lookup function `String → Option String`
  (`os.getenv k` is `env k`; `os.getenv k d` is `(env k).getD d`).
- The filesystem is an existence oracle `String → Bool`
  (`os.path.exists p` is `fs p`).
- Python `float` values are modelled as `ℚ`; every numeric constant in the
  source is an exact decimal, written here as `mkRat` so that the kernel can
  evaluate comparisons (decimal-literal bridge lemmas are proved below).
- Python `dict` is modelled as an insertion-ordered association list.
- pydantic validation failures are modelled by `Except ConfigError`; the
  error kinds follow the specification's names for the four failure modes.
- The `structlog` warning emitted by `FirebaseConfig.validate_credentials_path`
  is modelled explicitly: that constructor returns its log entries next to
  its result.
-/

/-- A structured log entry (level, message, key/value pairs), modelling a
`structlog` call such as `logger.warning("...", path=v)`. -/
structure LogEntry where
  level : String
  message : String
  context : List (String × String)
deriving Repr, DecidableEq

/-- The validation failure kinds of the configuration module:
`MissingCredentialsFile` (the `FileNotFoundError` of
`validate_credentials_path`), `InvalidEnumValue` (a pydantic `Literal`
mismatch), `RangeViolation` (a pydantic `ge`/`le` bound violation, naming
the offending field), and `InvalidNumericFormat` (the `ValueError` of
`int(...)` on a non-numeric string). -/
inductive ConfigError where
  | missingCredentialsFile (path : String)
  | invalidEnumValue (field : String) (value : String)
  | rangeViolation (field : String)
  | invalidNumericFormat (value : String)
deriving Repr, DecidableEq

/-- `FirebaseConfig` record (source lines 19–34): pydantic `BaseModel` with
four string fields. -/
structure FirebaseConfig where
  project_id : String
  credentials_path : String
  firestore_collection : String
  realtime_database_ref : String
deriving Repr, DecidableEq

/-- Construction of `FirebaseConfig(project_id=…, credentials_path=…)`.
The remaining two fields keep their declared defaults. The
`validate_credentials_path` validator checks `os.path.exists` on the
supplied path; when absent it first logs a structured warning and then
raises `FileNotFoundError` (modelled as `ConfigError.missingCredentialsFile`).
The returned list carries the log entries emitted during construction. -/
def FirebaseConfig.construct (fs : String → Bool) (project_id credentials_path : String) :
    List LogEntry × Except ConfigError FirebaseConfig :=
  if fs credentials_path then
    ([], .ok { project_id := project_id
               credentials_path := credentials_path
               firestore_collection := "arats_trading_data"
               realtime_database_ref := "arats/state" })
  else
    ([{ level := "warning"
        message := "Firebase credentials file not found"
        context := [("path", credentials_path)] }],
     .error (.missingCredentialsFile credentials_path))

/-- `ExchangeConfig` record (source lines 37–44). `exchange_id` is a
`Literal` of four exchange names, modelled as a `String` restricted at
construction time. -/
structure ExchangeConfig where
  exchange_id : String
  api_key : Option String
  api_secret : Option String
  sandbox_mode : Bool
  rate_limit : Int
  timeout : Int
deriving Repr, DecidableEq

/-- The closed set of the `exchange_id` `Literal`. -/
def validExchangeIds : List String := ["binance", "coinbase", "kraken", "bybit"]

/-- Construction of `ExchangeConfig(api_key=…, api_secret=…, sandbox_mode=…)`
with an explicit `exchange_id` argument (its declared default is
`"binance"`). pydantic rejects an `exchange_id` outside the `Literal` set;
`api_key` and `api_secret` are `Optional[str]` and accept `None`;
`rate_limit` and `timeout` keep their declared defaults 1000 and 30000. -/
def ExchangeConfig.construct (exchange_id : String) (api_key api_secret : Option String)
    (sandbox_mode : Bool) : Except ConfigError ExchangeConfig :=
  if exchange_id ∈ validExchangeIds then
    .ok { exchange_id := exchange_id
          api_key := api_key
          api_secret := api_secret
          sandbox_mode := sandbox_mode
          rate_limit := 1000
          timeout := 30000 }
  else .error (.invalidEnumValue "exchange_id" exchange_id)

/-- `RiskConfig` record (source lines 47–63). The five percentage fields are
Python floats, modelled as `ℚ`; `stress_test_scenarios` is a `Dict[str, float]`,
modelled as an insertion-ordered association list. -/
structure RiskConfig where
  max_position_size_pct : ℚ
  max_daily_loss_pct : ℚ
  var_confidence_level : ℚ
  stress_test_scenarios : List (String × ℚ)
  stop_loss_pct : ℚ
  take_profit_pct : ℚ
deriving Repr, DecidableEq

/-- The `default_factory` mapping of `stress_test_scenarios`
(source lines 56–60): flash_crash −0.15, volatility_spike 0.3,
liquidity_crisis −0.25. -/
def defaultStressScenarios : List (String × ℚ) :=
  [("flash_crash", mkRat (-15) 100),
   ("volatility_spike", mkRat 3 10),
   ("liquidity_crisis", mkRat (-25) 100)]

/-- Construction of `RiskConfig` with optional per-field overrides (a `none`
argument means the caller did not supply the field, so its declared default
applies). pydantic checks each `ge`/`le` bound in field declaration order
and fails with a range violation naming the field. Defaults, in order:
0.02, 0.05, 0.95, the scenario mapping, 0.02, 0.04; bounds:
[0.001, 0.1], [0.01, 0.2], [0.9, 0.99], (none), [0.005, 0.1], [0.01, 0.2]. -/
def RiskConfig.construct (mpsp mdlp vcl : Option ℚ) (sts : Option (List (String × ℚ)))
    (slp tpp : Option ℚ) : Except ConfigError RiskConfig :=
  if ¬(mkRat 1 1000 ≤ mpsp.getD (mkRat 2 100) ∧ mpsp.getD (mkRat 2 100) ≤ mkRat 1 10) then
    .error (.rangeViolation "max_position_size_pct")
  else if ¬(mkRat 1 100 ≤ mdlp.getD (mkRat 5 100) ∧ mdlp.getD (mkRat 5 100) ≤ mkRat 2 10) then
    .error (.rangeViolation "max_daily_loss_pct")
  else if ¬(mkRat 9 10 ≤ vcl.getD (mkRat 95 100) ∧ vcl.getD (mkRat 95 100) ≤ mkRat 99 100) then
    .error (.rangeViolation "var_confidence_level")
  else if ¬(mkRat 5 1000 ≤ slp.getD (mkRat 2 100) ∧ slp.getD (mkRat 2 100) ≤ mkRat 1 10) then
    .error (.rangeViolation "stop_loss_pct")
  else if ¬(mkRat 1 100 ≤ tpp.getD (mkRat 4 100) ∧ tpp.getD (mkRat 4 100) ≤ mkRat 2 10) then
    .error (.rangeViolation "take_profit_pct")
  else
    .ok { max_position_size_pct := mpsp.getD (mkRat 2 100)
          max_daily_loss_pct := mdlp.getD (mkRat 5 100)
          var_confidence_level := vcl.getD (mkRat 95 100)
          stress_test_scenarios := sts.getD defaultStressScenarios
          stop_loss_pct := slp.getD (mkRat 2 100)
          take_profit_pct := tpp.getD (mkRat 4 100) }

/-- `ARATSConfig` record (source lines 66–90): the three sub-records plus
operational scalars. -/
structure ARATSConfig where
  firebase : FirebaseConfig
  exchange : ExchangeConfig
  risk : RiskConfig
  data_refresh_interval : Int
  risk_recalc_interval : Int
  logging_level : String
  ml_model_path : String
  feature_window : Int
  enable_live_trading : Bool
  enable_hedging : Bool
deriving Repr, DecidableEq

/-- The closed set of the `logging_level` `Literal`. -/
def validLoggingLevels : List String := ["DEBUG", "INFO", "WARNING", "ERROR"]

/-- Construction of `ARATSConfig(firebase=…, exchange=…, risk=…,
data_refresh_interval=…, risk_recalc_interval=…, logging_level=…,
enable_live_trading=…)`. `ml_model_path`, `feature_window` and
`enable_hedging` keep their declared defaults; `logging_level` outside its
`Literal` set is rejected by pydantic. -/
def ARATSConfig.construct (firebase : FirebaseConfig) (exchange : ExchangeConfig)
    (risk : RiskConfig) (data_refresh_interval risk_recalc_interval : Int)
    (logging_level : String) (enable_live_trading : Bool) :
    Except ConfigError ARATSConfig :=
  if logging_level ∈ validLoggingLevels then
    .ok { firebase := firebase
          exchange := exchange
          risk := risk
          data_refresh_interval := data_refresh_interval
          risk_recalc_interval := risk_recalc_interval
          logging_level := logging_level
          ml_model_path := "models/risk_model.pkl"
          feature_window := 50
          enable_live_trading := enable_live_trading
          enable_hedging := true }
  else .error (.invalidEnumValue "logging_level" logging_level)

/-- Python `str.lower` on the ASCII range (the only range the module feeds
it): each uppercase ASCII letter maps to its lowercase counterpart via
`Char.toLower`, every other character is unchanged. -/
def pyLower (s : String) : String := String.mk (s.data.map Char.toLower)

/-- The boolean parse the loader applies to environment strings:
`s.lower() == 'true'` (source lines 115 and 129). -/
def pyLowerEqTrue (s : String) : Bool := pyLower s == "true"

/-- Python default string whitespace (`str.strip` with no argument). -/
def isPyWhitespace (c : Char) : Bool :=
  c == ' ' || c == '\t' || c == '\n' || c == '\r' || c == Char.ofNat 11 || c == Char.ofNat 12

/-- Digit run as accepted by Python `int` after the first digit: further
digits, with single underscores allowed only between digits. -/
def pyDigitsTail : List Char → Bool
  | [] => true
  | ['_'] => false
  | '_' :: d :: rest => d.isDigit && pyDigitsTail rest
  | c :: rest => c.isDigit && pyDigitsTail rest

/-- Nonempty digit run (with internal underscores) as accepted by Python
`int` after an optional sign. -/
def pyDigits : List Char → Bool
  | [] => false
  | c :: rest => c.isDigit && pyDigitsTail rest

/-- Numeric value of a digit run, skipping underscores. -/
def pyDigitsVal (l : List Char) : Nat :=
  l.foldl (fun acc c => if c = '_' then acc else acc * 10 + (c.toNat - 48)) 0

/-- Python `int(s)` for a decimal string: strips leading/trailing
whitespace, accepts an optional sign followed by digits (underscores
between digits), and raises `ValueError` otherwise — modelled as `none`. -/
def pyInt (s : String) : Option Int :=
  let l := ((s.data.dropWhile isPyWhitespace).reverse.dropWhile isPyWhitespace).reverse
  match l with
  | '+' :: rest => if pyDigits rest then some (pyDigitsVal rest : Int) else none
  | '-' :: rest => if pyDigits rest then some (-(pyDigitsVal rest : Int)) else none
  | rest => if pyDigits rest then some (pyDigitsVal rest : Int) else none

/-- `os.getenv(k, d)`: the environment value when the variable is set, the
default otherwise. -/
def getenvD (env : String → Option String) (k d : String) : String := (env k).getD d

/-- The default credentials path used both by the schema and by the loader. -/
def defaultCredentialsPath : String := "credentials/firebase_service_account.json"

/-- Lines 104–130 of `load_config`: build the leaf configurations from the
environment and assemble the `ARATSConfig` bound to the local variable
`config`. Each constructor failure aborts the load with that failure; the
two `int(...)` argument expressions are evaluated (and can fail) in source
order, before `ARATSConfig` validation runs. -/
def load_config_assembled (env : String → Option String) (fs : String → Bool) :
    Except ConfigError ARATSConfig :=
  match (FirebaseConfig.construct fs (getenvD env "FIREBASE_PROJECT_ID" "arats-dev")
          (getenvD env "FIREBASE_CREDENTIALS_PATH" defaultCredentialsPath)).2 with
  | .error e => .error e
  | .ok firebase_config =>
    match ExchangeConfig.construct "binance" (env "EXCHANGE_API_KEY") (env "EXCHANGE_API_SECRET")
            (pyLowerEqTrue (getenvD env "EXCHANGE_SANDBOX" "True")) with
    | .error e => .error e
    | .ok exchange_config =>
      match RiskConfig.construct none none none none none none with
      | .error e => .error e
      | .ok risk_config =>
        match pyInt (getenvD env "DATA_REFRESH_INTERVAL" "60") with
        | none => .error (.invalidNumericFormat (getenvD env "DATA_REFRESH_INTERVAL" "60"))
        | some dri =>
          match pyInt (getenvD env "RISK_RECALC_INTERVAL" "300") with
          | none => .error (.invalidNumericFormat (getenvD env "RISK_RECALC_INTERVAL" "300"))
          | some rri =>
            ARATSConfig.construct firebase_config exchange_config risk_config dri rri
              (getenvD env "LOGGING_LEVEL" "INFO")
              (pyLowerEqTrue (getenvD env "ENABLE_LIVE_TRADING" "False"))

/-- `load_config` as written in the source: after assembling (and logging)
the configuration, the function body ends in a bare `return` statement
(line 135), so its success value is Python `None`, not the assembled
object. Modelled from the spec: the source's `try:` block is truncated
before its `except` handler; per the specification all validation errors
propagate unmodified to the caller, so a failure of any construction step
is the failure of `load_config`. -/
def load_config (env : String → Option String) (fs : String → Bool) :
    Except ConfigError (Option ARATSConfig) :=
  (load_config_assembled env fs).map (fun _ => none)

/-! ### Helper lemmas -/

/-- The `mkRat` constants used in the embedding are exactly the decimal
literals written in the source. -/
theorem mkRat_decimal_bridge :
    mkRat 1 1000 = (0.001 : ℚ) ∧ mkRat 2 100 = (0.02 : ℚ) ∧ mkRat 1 10 = (0.1 : ℚ) ∧
    mkRat 1 100 = (0.01 : ℚ) ∧ mkRat 5 100 = (0.05 : ℚ) ∧ mkRat 2 10 = (0.2 : ℚ) ∧
    mkRat 9 10 = (0.9 : ℚ) ∧ mkRat 95 100 = (0.95 : ℚ) ∧ mkRat 99 100 = (0.99 : ℚ) ∧
    mkRat 5 1000 = (0.005 : ℚ) ∧ mkRat 4 100 = (0.04 : ℚ) ∧
    mkRat (-15) 100 = (-0.15 : ℚ) ∧ mkRat 3 10 = (0.3 : ℚ) ∧ mkRat (-25) 100 = (-0.25 : ℚ) := by
  refine ⟨?_, ?_, ?_, ?_, ?_, ?_, ?_, ?_, ?_, ?_, ?_, ?_, ?_, ?_⟩ <;>
    norm_num [Rat.mkRat_eq_div]

/-- For a valid code point, `Char.ofNat` round-trips through `Char.toNat`. -/
theorem toNat_ofNat_valid (n : Nat) (h : n.isValidChar) : (Char.ofNat n).toNat = n := by
  unfold Char.ofNat
  rw [dif_pos h]
  simp [Char.ofNatAux, Char.toNat, UInt32.toNat]

/-- `Char.toNat` is injective. -/
theorem char_toNat_inj {a b : Char} (h : a.toNat = b.toNat) : a = b := by
  apply Char.eq_of_val_eq
  apply UInt32.eq_of_toBitVec_eq
  have h2 : a.val.toBitVec.toNat = b.val.toBitVec.toNat := h
  exact BitVec.eq_of_toNat_eq h2

/-- A character lowercases to `d` exactly when it is `d` itself or the
uppercase counterpart of `d`, for lowercase ASCII targets `d`. -/
theorem toLower_eq_iff_ascii {c d : Char} (hd1 : 97 ≤ d.toNat) (hd2 : d.toNat ≤ 122) :
    c.toLower = d ↔ c = d ∨ c.toNat + 32 = d.toNat := by
  constructor
  · intro hv
    unfold Char.toLower at hv
    by_cases h : c.toNat ≥ 65 ∧ c.toNat ≤ 90
    · right
      rw [if_pos h] at hv
      have hr : (Char.ofNat (c.toNat + 32)).toNat = c.toNat + 32 :=
        toNat_ofNat_valid _ (Or.inl (by omega))
      rw [hv] at hr
      omega
    · left
      rw [if_neg h] at hv
      exact hv
  · intro hv
    unfold Char.toLower
    rcases hv with h | h
    · subst h
      rw [if_neg (by omega)]
    · rw [if_pos (by omega)]
      apply char_toNat_inj
      rw [toNat_ofNat_valid _ (Or.inl (by omega))]
      exact h

/-- Mapping `Char.toLower` over a list hits a target of lowercase ASCII
letters exactly when the list matches the target character by character up
to an uppercase-to-lowercase shift. -/
theorem map_toLower_eq_iff (l t : List Char)
    (ht : ∀ c ∈ t, 97 ≤ c.toNat ∧ c.toNat ≤ 122) :
    l.map Char.toLower = t ↔
      List.Forall₂ (fun c d => c = d ∨ c.toNat + 32 = d.toNat) l t := by
  induction t generalizing l with
  | nil =>
    cases l <;> simp
  | cons d t ih =>
    cases l with
    | nil => simp
    | cons c l₂ =>
      have hd := ht d (by simp)
      have hrest : ∀ c ∈ t, 97 ≤ c.toNat ∧ c.toNat ≤ 122 := fun c hc => ht c (by simp [hc])
      simp only [List.map_cons, List.cons.injEq, List.forall₂_cons]
      constructor
      · rintro ⟨h1, h2⟩
        exact ⟨(toLower_eq_iff_ascii hd.1 hd.2).mp h1, (ih l₂ hrest).mp h2⟩
      · rintro ⟨h1, h2⟩
        exact ⟨(toLower_eq_iff_ascii hd.1 hd.2).mpr h1, (ih l₂ hrest).mpr h2⟩

/-- `s` is a case variant of the literal `"true"`: character for character
it equals `'t'`, `'r'`, `'u'`, `'e'` or the uppercase counterpart. -/
def caseVariantOfTrue (s : String) : Prop :=
  List.Forall₂ (fun c d => c = d ∨ c.toNat + 32 = d.toNat) s.data "true".data

/-! ### Shared concrete inputs for witnesses -/

/-- An empty environment: every variable is unset. -/
def envEmpty : String → Option String := fun _ => none

/-- A filesystem on which exactly the default credentials file exists. -/
def fsDefaultOnly : String → Bool := fun p => p == defaultCredentialsPath

/-- The configuration `load_config` assembles when every environment
variable is unset and the default credentials file exists. -/
def defaultAssembledConfig : ARATSConfig :=
  { firebase := { project_id := "arats-dev"
                  credentials_path := defaultCredentialsPath
                  firestore_collection := "arats_trading_data"
                  realtime_database_ref := "arats/state" }
    exchange := { exchange_id := "binance"
                  api_key := none
                  api_secret := none
                  sandbox_mode := true
                  rate_limit := 1000
                  timeout := 30000 }
    risk := { max_position_size_pct := mkRat 2 100
              max_daily_loss_pct := mkRat 5 100
              var_confidence_level := mkRat 95 100
              stress_test_scenarios := defaultStressScenarios
              stop_loss_pct := mkRat 2 100
              take_profit_pct := mkRat 4 100 }
    data_refresh_interval := 60
    risk_recalc_interval := 300
    logging_level := "INFO"
    ml_model_path := "models/risk_model.pkl"
    feature_window := 50
    enable_live_trading := false
    enable_hedging := true }

/-- On the empty environment with the default credentials file present, the
assembly steps of `load_config` produce exactly `defaultAssembledConfig`. -/
theorem load_config_assembled_default :
    load_config_assembled envEmpty fsDefaultOnly = .ok defaultAssembledConfig := rfl

/-! ### Claim theorems -/

/-- C3: for every credentials_path that the filesystem check reports absent,
FirebaseSettings construction fails with `MissingCredentialsFile` for that
path and emits exactly one structured warning log entry alongside the
failure; when the file exists, construction succeeds and stores the path
unchanged. -/
theorem firebase_credentials_validation (fs : String → Bool) (pid path : String) :
    (fs path = false →
      FirebaseConfig.construct fs pid path =
        ([{ level := "warning"
            message := "Firebase credentials file not found"
            context := [("path", path)] }],
         .error (.missingCredentialsFile path))) ∧
    (fs path = true →
      FirebaseConfig.construct fs pid path =
        ([], .ok { project_id := pid
                   credentials_path := path
                   firestore_collection := "arats_trading_data"
                   realtime_database_ref := "arats/state" })) := by
  constructor <;> intro h <;> simp [FirebaseConfig.construct, h]

/-- Witness for C3 at concrete inputs: a filesystem without the file, and
one with it. -/
theorem firebase_credentials_validation_witness :
    FirebaseConfig.construct (fun _ => false) "arats-dev" "credentials/missing.json" =
      ([{ level := "warning"
          message := "Firebase credentials file not found"
          context := [("path", "credentials/missing.json")] }],
       .error (.missingCredentialsFile "credentials/missing.json")) ∧
    FirebaseConfig.construct (fun _ => true) "arats-dev" defaultCredentialsPath =
      ([], .ok { project_id := "arats-dev"
                 credentials_path := defaultCredentialsPath
                 firestore_collection := "arats_trading_data"
                 realtime_database_ref := "arats/state" }) :=
  ⟨(firebase_credentials_validation (fun _ => false) "arats-dev" "credentials/missing.json").1 rfl,
   (firebase_credentials_validation (fun _ => true) "arats-dev" defaultCredentialsPath).2 rfl⟩

/-- C8 counterexample: FirebaseSettings construction with an empty
project_id and an existing credentials file succeeds and yields an object
whose project_id is the empty string — no non-emptiness check exists. -/
theorem firebase_empty_project_id_accepted :
    (FirebaseConfig.construct (fun _ => true) "" defaultCredentialsPath).2 =
      .ok { project_id := ""
            credentials_path := defaultCredentialsPath
            firestore_collection := "arats_trading_data"
            realtime_database_ref := "arats/state" } := rfl

/-- C8 amended: project_id is stored unchanged whatever string is supplied,
the empty string included; the only construction-time validation of
FirebaseSettings is the credentials-path existence check. -/
theorem firebase_project_id_unconstrained (fs : String → Bool) (pid path : String)
    (h : fs path = true) :
    (FirebaseConfig.construct fs pid path).2 =
      .ok { project_id := pid
            credentials_path := path
            firestore_collection := "arats_trading_data"
            realtime_database_ref := "arats/state" } := by
  simp [FirebaseConfig.construct, h]

/-- Witness for the amended C8 at the empty project_id. -/
theorem firebase_project_id_unconstrained_witness :
    (FirebaseConfig.construct (fun _ => true) "" defaultCredentialsPath).2 =
      .ok { project_id := ""
            credentials_path := defaultCredentialsPath
            firestore_collection := "arats_trading_data"
            realtime_database_ref := "arats/state" } :=
  firebase_project_id_unconstrained (fun _ => true) "" defaultCredentialsPath rfl

/-- C5: ExchangeSettings construction rejects every exchange_id outside
{binance, coinbase, kraken, bybit} with `InvalidEnumValue`, and accepts
every member of the set — with absent (`none`) api_key/api_secret accepted
and stored as such. -/
theorem exchange_id_enum_validation :
    (∀ eid : String, eid ∉ validExchangeIds → ∀ k s : Option String, ∀ b : Bool,
      ExchangeConfig.construct eid k s b = .error (.invalidEnumValue "exchange_id" eid)) ∧
    (∀ eid : String, eid ∈ validExchangeIds → ∀ k s : Option String, ∀ b : Bool,
      ExchangeConfig.construct eid k s b =
        .ok { exchange_id := eid
              api_key := k
              api_secret := s
              sandbox_mode := b
              rate_limit := 1000
              timeout := 30000 }) := by
  constructor <;> intro eid h k s b <;> simp [ExchangeConfig.construct, h]

/-- Witness for C5: the unlisted id "ftx" is rejected; "kraken" with absent
credentials is accepted. -/
theorem exchange_id_enum_validation_witness :
    ExchangeConfig.construct "ftx" none none true =
      .error (.invalidEnumValue "exchange_id" "ftx") ∧
    ExchangeConfig.construct "kraken" none none false =
      .ok { exchange_id := "kraken"
            api_key := none
            api_secret := none
            sandbox_mode := false
            rate_limit := 1000
            timeout := 30000 } :=
  ⟨exchange_id_enum_validation.1 "ftx" (by decide) none none true,
   exchange_id_enum_validation.2 "kraken" (by decide) none none false⟩

/-- C7: with no caller-supplied scenarios, RiskSettings construction stores
exactly the three fixed default scenarios (flash_crash −0.15,
volatility_spike 0.3, liquidity_crisis −0.25); a caller-supplied mapping is
stored exactly as given, fully replacing the defaults. -/
theorem stress_scenarios_default_or_replace :
    (RiskConfig.construct none none none none none none =
      .ok { max_position_size_pct := mkRat 2 100
            max_daily_loss_pct := mkRat 5 100
            var_confidence_level := mkRat 95 100
            stress_test_scenarios := [("flash_crash", mkRat (-15) 100),
                                      ("volatility_spike", mkRat 3 10),
                                      ("liquidity_crisis", mkRat (-25) 100)]
            stop_loss_pct := mkRat 2 100
            take_profit_pct := mkRat 4 100 }) ∧
    (∀ m : List (String × ℚ),
      RiskConfig.construct none none none (some m) none none =
        .ok { max_position_size_pct := mkRat 2 100
              max_daily_loss_pct := mkRat 5 100
              var_confidence_level := mkRat 95 100
              stress_test_scenarios := m
              stop_loss_pct := mkRat 2 100
              take_profit_pct := mkRat 4 100 }) :=
  ⟨rfl, fun _ => rfl⟩

/-- C4: each risk percentage field outside its declared inclusive range
makes RiskSettings construction fail with `RangeViolation` naming that
field; values inside the ranges are accepted and stored unchanged. The
final conjuncts identify the `mkRat` bounds with the decimal literals of
the source. -/
theorem risk_range_validation :
    (∀ v : ℚ, ¬(mkRat 1 1000 ≤ v ∧ v ≤ mkRat 1 10) →
      RiskConfig.construct (some v) none none none none none =
        .error (.rangeViolation "max_position_size_pct")) ∧
    (∀ v : ℚ, ¬(mkRat 1 100 ≤ v ∧ v ≤ mkRat 2 10) →
      RiskConfig.construct none (some v) none none none none =
        .error (.rangeViolation "max_daily_loss_pct")) ∧
    (∀ v : ℚ, ¬(mkRat 9 10 ≤ v ∧ v ≤ mkRat 99 100) →
      RiskConfig.construct none none (some v) none none none =
        .error (.rangeViolation "var_confidence_level")) ∧
    (∀ v : ℚ, ¬(mkRat 5 1000 ≤ v ∧ v ≤ mkRat 1 10) →
      RiskConfig.construct none none none none (some v) none =
        .error (.rangeViolation "stop_loss_pct")) ∧
    (∀ v : ℚ, ¬(mkRat 1 100 ≤ v ∧ v ≤ mkRat 2 10) →
      RiskConfig.construct none none none none none (some v) =
        .error (.rangeViolation "take_profit_pct")) ∧
    (∀ v₁ v₂ v₃ v₄ v₅ : ℚ,
      mkRat 1 1000 ≤ v₁ ∧ v₁ ≤ mkRat 1 10 →
      mkRat 1 100 ≤ v₂ ∧ v₂ ≤ mkRat 2 10 →
      mkRat 9 10 ≤ v₃ ∧ v₃ ≤ mkRat 99 100 →
      mkRat 5 1000 ≤ v₄ ∧ v₄ ≤ mkRat 1 10 →
      mkRat 1 100 ≤ v₅ ∧ v₅ ≤ mkRat 2 10 →
      RiskConfig.construct (some v₁) (some v₂) (some v₃) none (some v₄) (some v₅) =
        .ok { max_position_size_pct := v₁
              max_daily_loss_pct := v₂
              var_confidence_level := v₃
              stress_test_scenarios := defaultStressScenarios
              stop_loss_pct := v₄
              take_profit_pct := v₅ }) ∧
    mkRat 1 1000 = (0.001 : ℚ) ∧ mkRat 1 10 = (0.1 : ℚ) ∧
    mkRat 1 100 = (0.01 : ℚ) ∧ mkRat 2 10 = (0.2 : ℚ) ∧
    mkRat 9 10 = (0.9 : ℚ) ∧ mkRat 99 100 = (0.99 : ℚ) ∧
    mkRat 5 1000 = (0.005 : ℚ) := by
  refine ⟨?_, ?_, ?_, ?_, ?_, ?_, ?_, ?_, ?_, ?_, ?_, ?_, ?_⟩
  · intro v h
    unfold RiskConfig.construct
    rw [if_pos]
    exact h
  · intro v h
    unfold RiskConfig.construct
    rw [if_neg (by decide), if_pos]
    exact h
  · intro v h
    unfold RiskConfig.construct
    rw [if_neg (by decide), if_neg (by decide), if_pos]
    exact h
  · intro v h
    unfold RiskConfig.construct
    rw [if_neg (by decide), if_neg (by decide), if_neg (by decide), if_pos]
    exact h
  · intro v h
    unfold RiskConfig.construct
    rw [if_neg (by decide), if_neg (by decide), if_neg (by decide), if_neg (by decide), if_pos]
    exact h
  · intro v₁ v₂ v₃ v₄ v₅ h₁ h₂ h₃ h₄ h₅
    unfold RiskConfig.construct
    simp only [Option.getD_some, Option.getD_none]
    rw [if_neg (not_not_intro h₁), if_neg (not_not_intro h₂), if_neg (not_not_intro h₃),
        if_neg (not_not_intro h₄), if_neg (not_not_intro h₅)]
  · exact mkRat_decimal_bridge.1
  · exact mkRat_decimal_bridge.2.2.1
  · exact mkRat_decimal_bridge.2.2.2.1
  · exact mkRat_decimal_bridge.2.2.2.2.2.1
  · exact mkRat_decimal_bridge.2.2.2.2.2.2.1
  · exact mkRat_decimal_bridge.2.2.2.2.2.2.2.2.1
  · exact mkRat_decimal_bridge.2.2.2.2.2.2.2.2.2.1

/-- Witness for C4: an overlarge max_position_size_pct (0.5) is rejected
naming that field; an out-of-range take_profit_pct (0.5) is rejected naming
that field; supplying exactly the default values succeeds. -/
theorem risk_range_validation_witness :
    RiskConfig.construct (some (mkRat 5 10)) none none none none none =
      .error (.rangeViolation "max_position_size_pct") ∧
    RiskConfig.construct none none none none none (some (mkRat 5 10)) =
      .error (.rangeViolation "take_profit_pct") ∧
    RiskConfig.construct (some (mkRat 2 100)) (some (mkRat 5 100)) (some (mkRat 95 100)) none
        (some (mkRat 2 100)) (some (mkRat 4 100)) =
      .ok { max_position_size_pct := mkRat 2 100
            max_daily_loss_pct := mkRat 5 100
            var_confidence_level := mkRat 95 100
            stress_test_scenarios := defaultStressScenarios
            stop_loss_pct := mkRat 2 100
            take_profit_pct := mkRat 4 100 } :=
  ⟨risk_range_validation.1 (mkRat 5 10) (by decide),
   risk_range_validation.2.2.2.2.1 (mkRat 5 10) (by decide),
   risk_range_validation.2.2.2.2.2.1 (mkRat 2 100) (mkRat 5 100) (mkRat 95 100) (mkRat 2 100)
     (mkRat 4 100) (by decide) (by decide) (by decide) (by decide) (by decide)⟩

/-- C6: the boolean parse applied to EXCHANGE_SANDBOX and
ENABLE_LIVE_TRADING strings accepts "TRUE", "true" and "True", and in
general yields true exactly on the case variants of "true"; every other
string yields false. -/
theorem bool_env_parse_case_insensitive :
    (pyLowerEqTrue "TRUE" = true ∧ pyLowerEqTrue "true" = true ∧ pyLowerEqTrue "True" = true) ∧
    ∀ s : String, pyLowerEqTrue s = true ↔ caseVariantOfTrue s := by
  refine ⟨⟨by decide, by decide, by decide⟩, ?_⟩
  intro s
  rw [pyLowerEqTrue, beq_iff_eq, pyLower]
  have hdata : (String.mk (s.data.map Char.toLower) = "true") ↔
      s.data.map Char.toLower = "true".data := by
    constructor
    · intro h
      rw [← h]
    · intro h
      apply String.ext
      exact h
  rw [hdata]
  exact map_toLower_eq_iff s.data "true".data (by decide)

/-- The loader always constructs the exchange settings with the defaulted
exchange_id "binance", which the enum check accepts. -/
theorem exchange_construct_binance (k s : Option String) (b : Bool) :
    ExchangeConfig.construct "binance" k s b =
      .ok { exchange_id := "binance"
            api_key := k
            api_secret := s
            sandbox_mode := b
            rate_limit := 1000
            timeout := 30000 } := rfl

/-- The loader always constructs the risk settings with no overrides, which
yields the all-defaults record. -/
theorem risk_construct_defaults :
    RiskConfig.construct none none none none none none =
      .ok { max_position_size_pct := mkRat 2 100
            max_daily_loss_pct := mkRat 5 100
            var_confidence_level := mkRat 95 100
            stress_test_scenarios := defaultStressScenarios
            stop_loss_pct := mkRat 2 100
            take_profit_pct := mkRat 4 100 } := rfl

/-- Inversion of a successful assembly: the exchange sub-record is fully
determined by the three exchange environment variables with rate_limit 1000
and timeout 30000 fixed, and the risk sub-record is the all-defaults
record. -/
theorem load_config_assembled_ok_inv (env : String → Option String) (fs : String → Bool)
    (c : ARATSConfig) (h : load_config_assembled env fs = .ok c) :
    c.exchange = { exchange_id := "binance"
                   api_key := env "EXCHANGE_API_KEY"
                   api_secret := env "EXCHANGE_API_SECRET"
                   sandbox_mode := pyLowerEqTrue (getenvD env "EXCHANGE_SANDBOX" "True")
                   rate_limit := 1000
                   timeout := 30000 } ∧
    c.risk = { max_position_size_pct := mkRat 2 100
               max_daily_loss_pct := mkRat 5 100
               var_confidence_level := mkRat 95 100
               stress_test_scenarios := defaultStressScenarios
               stop_loss_pct := mkRat 2 100
               take_profit_pct := mkRat 4 100 } := by
  unfold load_config_assembled at h
  rw [exchange_construct_binance, risk_construct_defaults] at h
  cases hfb : (FirebaseConfig.construct fs (getenvD env "FIREBASE_PROJECT_ID" "arats-dev")
      (getenvD env "FIREBASE_CREDENTIALS_PATH" defaultCredentialsPath)).2 with
  | error e => rw [hfb] at h; simp at h
  | ok fb =>
    rw [hfb] at h
    simp only [] at h
    cases h1 : pyInt (getenvD env "DATA_REFRESH_INTERVAL" "60") with
    | none => rw [h1] at h; simp at h
    | some dri =>
      rw [h1] at h
      simp only [] at h
      cases h2 : pyInt (getenvD env "RISK_RECALC_INTERVAL" "300") with
      | none => rw [h2] at h; simp at h
      | some rri =>
        rw [h2] at h
        simp only [] at h
        unfold ARATSConfig.construct at h
        by_cases hl : getenvD env "LOGGING_LEVEL" "INFO" ∈ validLoggingLevels
        · rw [if_pos hl] at h
          injection h with h
          subst h
          exact ⟨rfl, rfl⟩
        · rw [if_neg hl] at h
          simp at h

/-- C9: whatever the environment, a configuration assembled by load_config
has exchange rate_limit 1000 and timeout 30000: the loader passes neither
field, so both keep their declared defaults and no environment variable can
change them. -/
theorem exchange_rate_limit_timeout_fixed (env : String → Option String) (fs : String → Bool)
    (c : ARATSConfig) (h : load_config_assembled env fs = .ok c) :
    c.exchange.rate_limit = 1000 ∧ c.exchange.timeout = 30000 := by
  rw [(load_config_assembled_ok_inv env fs c h).1]
  exact ⟨rfl, rfl⟩

/-- Witness for C9 on the empty environment. -/
theorem exchange_rate_limit_timeout_fixed_witness :
    defaultAssembledConfig.exchange.rate_limit = 1000 ∧
    defaultAssembledConfig.exchange.timeout = 30000 :=
  exchange_rate_limit_timeout_fixed envEmpty fsDefaultOnly defaultAssembledConfig rfl

/-- C10: whatever the environment, the risk sub-record of a configuration
assembled by load_config is the all-defaults record — 0.02, 0.05, 0.95,
0.02, 0.04 and the three-entry stress map (flash_crash −0.15,
volatility_spike 0.3, liquidity_crisis −0.25); the loader passes no risk
overrides, so no environment variable influences any risk field. The
trailing conjuncts identify the `mkRat` values with those decimals. -/
theorem risk_settings_all_defaults (env : String → Option String) (fs : String → Bool)
    (c : ARATSConfig) (h : load_config_assembled env fs = .ok c) :
    c.risk = { max_position_size_pct := mkRat 2 100
               max_daily_loss_pct := mkRat 5 100
               var_confidence_level := mkRat 95 100
               stress_test_scenarios := [("flash_crash", mkRat (-15) 100),
                                         ("volatility_spike", mkRat 3 10),
                                         ("liquidity_crisis", mkRat (-25) 100)]
               stop_loss_pct := mkRat 2 100
               take_profit_pct := mkRat 4 100 } ∧
    mkRat 2 100 = (0.02 : ℚ) ∧ mkRat 5 100 = (0.05 : ℚ) ∧ mkRat 95 100 = (0.95 : ℚ) ∧
    mkRat 4 100 = (0.04 : ℚ) ∧ mkRat (-15) 100 = (-0.15 : ℚ) ∧ mkRat 3 10 = (0.3 : ℚ) ∧
    mkRat (-25) 100 = (-0.25 : ℚ) := by
  refine ⟨(load_config_assembled_ok_inv env fs c h).2, mkRat_decimal_bridge.2.1,
    mkRat_decimal_bridge.2.2.2.2.1, mkRat_decimal_bridge.2.2.2.2.2.2.2.1,
    mkRat_decimal_bridge.2.2.2.2.2.2.2.2.2.2.1, mkRat_decimal_bridge.2.2.2.2.2.2.2.2.2.2.2.1,
    mkRat_decimal_bridge.2.2.2.2.2.2.2.2.2.2.2.2.1, mkRat_decimal_bridge.2.2.2.2.2.2.2.2.2.2.2.2.2⟩

/-- Witness for C10 on the empty environment. -/
theorem risk_settings_all_defaults_witness :
    defaultAssembledConfig.risk = { max_position_size_pct := mkRat 2 100
                                    max_daily_loss_pct := mkRat 5 100
                                    var_confidence_level := mkRat 95 100
                                    stress_test_scenarios := [("flash_crash", mkRat (-15) 100),
                                                              ("volatility_spike", mkRat 3 10),
                                                              ("liquidity_crisis", mkRat (-25) 100)]
                                    stop_loss_pct := mkRat 2 100
                                    take_profit_pct := mkRat 4 100 } ∧
    mkRat 2 100 = (0.02 : ℚ) ∧ mkRat 5 100 = (0.05 : ℚ) ∧ mkRat 95 100 = (0.95 : ℚ) ∧
    mkRat 4 100 = (0.04 : ℚ) ∧ mkRat (-15) 100 = (-0.15 : ℚ) ∧ mkRat 3 10 = (0.3 : ℚ) ∧
    mkRat (-25) 100 = (-0.25 : ℚ) :=
  risk_settings_all_defaults envEmpty fsDefaultOnly defaultAssembledConfig rfl

/-- C1 (code defect): on a fully valid environment — everything unset, the
default credentials file present — the loader assembles the complete
configuration object, but `load_config` itself ends in a bare `return`
(source line 135) and so yields Python None, never the assembled object:
for every environment, a successful `load_config` returns None. This
contradicts the function's own docstring and `-> ARATSConfig` annotation. -/
theorem load_config_success_returns_none :
    load_config_assembled envEmpty fsDefaultOnly = .ok defaultAssembledConfig ∧
    load_config envEmpty fsDefaultOnly = .ok none ∧
    ∀ (env : String → Option String) (fs : String → Bool),
      (∃ e, load_config env fs = .error e) ∨ load_config env fs = .ok none := by
  refine ⟨rfl, rfl, fun env fs => ?_⟩
  cases hx : load_config_assembled env fs with
  | error e => exact Or.inl ⟨e, by simp [load_config, hx, Except.map]⟩
  | ok c => exact Or.inr (by simp [load_config, hx, Except.map])

/-- C2: with the credentials file present, a non-numeric string in
DATA_REFRESH_INTERVAL or RISK_RECALC_INTERVAL makes `load_config` fail with
`InvalidNumericFormat` on a non-numeric interval string, and no
configuration object is returned. -/
theorem nonnumeric_interval_fails (env : String → Option String) (fs : String → Bool)
    (s : String)
    (hcred : fs (getenvD env "FIREBASE_CREDENTIALS_PATH" defaultCredentialsPath) = true)
    (hvar : env "DATA_REFRESH_INTERVAL" = some s ∨ env "RISK_RECALC_INTERVAL" = some s)
    (hnum : pyInt s = none) :
    ∃ t : String, pyInt t = none ∧
      load_config env fs = .error (.invalidNumericFormat t) := by
  unfold load_config load_config_assembled
  rw [exchange_construct_binance, risk_construct_defaults]
  have hfb : (FirebaseConfig.construct fs (getenvD env "FIREBASE_PROJECT_ID" "arats-dev")
      (getenvD env "FIREBASE_CREDENTIALS_PATH" defaultCredentialsPath)).2 =
      .ok { project_id := getenvD env "FIREBASE_PROJECT_ID" "arats-dev"
            credentials_path := getenvD env "FIREBASE_CREDENTIALS_PATH" defaultCredentialsPath
            firestore_collection := "arats_trading_data"
            realtime_database_ref := "arats/state" } := by
    simp [FirebaseConfig.construct, hcred]
  rw [hfb]
  cases h1 : pyInt (getenvD env "DATA_REFRESH_INTERVAL" "60") with
  | none =>
    exact ⟨getenvD env "DATA_REFRESH_INTERVAL" "60", h1, by simp [Except.map]⟩
  | some dri =>
    have hs : env "RISK_RECALC_INTERVAL" = some s := by
      rcases hvar with hv | hv
      · exfalso
        have : getenvD env "DATA_REFRESH_INTERVAL" "60" = s := by simp [getenvD, hv]
        rw [this, hnum] at h1
        exact Option.noConfusion h1
      · exact hv
    have h2 : getenvD env "RISK_RECALC_INTERVAL" "300" = s := by simp [getenvD, hs]
    rw [h2, hnum]
    exact ⟨s, hnum, by simp [Except.map]⟩

/-- Witness for C2: DATA_REFRESH_INTERVAL set to "notanumber", everything
else unset, credentials file present. -/
theorem nonnumeric_interval_fails_witness :
    ∃ t : String, pyInt t = none ∧
      load_config (fun k => if k = "DATA_REFRESH_INTERVAL" then some "notanumber" else none)
        fsDefaultOnly = .error (.invalidNumericFormat t) :=
  nonnumeric_interval_fails
    (fun k => if k = "DATA_REFRESH_INTERVAL" then some "notanumber" else none)
    fsDefaultOnly "notanumber" rfl (Or.inl rfl) rfl
